import Mathlib

/-!
Verification development for the Symptom_Tracker repository.

The embedding covers the three code units the claims are about:

* `supabase/functions/analyze-symptoms/index.ts` — the Analysis Service
  edge function (`analyzeSymptoms` below).  Its external effects (the
  environment credential lookup and the single upstream fetch) are passed
  in as explicit values; the request body is the already-decoded symptom
  list.  `JSON.parse` is modelled by `parseJson`, an executable JSON
  parser restricted to the fragment exercised here: integer number
  literals (fractions and exponents make the parse fail) and strings with
  the single-character escape sequences; this restriction is noted where
  it matters.
* the symptom-submission page (`handleSubmit` below) — modelled as a
  function from the outcomes of its external calls to the ordered list of
  observable events it performs.
* `src/pages/Dashboard.tsx` — `fetchDashboardData` and `exportData`,
  with the database's order-by/limit modelled explicitly and the
  locale/current-date functions passed in as parameters.
-/

set_option maxRecDepth 100000

namespace SymptomTracker

/-- JSON values, the result type of the modelled `JSON.parse`. -/
inductive JVal where
  | null : JVal
  | bool : Bool → JVal
  | num : Int → JVal
  | str : String → JVal
  | arr : List JVal → JVal
  | obj : List (String × JVal) → JVal

/-- Field lookup on a JSON object (JavaScript property access); `none`
both for a missing key and for a non-object receiver. -/
def JVal.lookup : JVal → String → Option JVal
  | JVal.obj fs, k => (fs.find? (fun p => p.fst == k)).map (fun p => p.snd)
  | _, _ => none

/-- Skip JSON whitespace. -/
def skipWs : List Char → List Char
  | [] => []
  | c :: cs => if c = ' ' || c = '\n' || c = '\t' || c = '\r' then skipWs cs else c :: cs

/-- Single-character string escapes accepted after a backslash. -/
def escChar (c : Char) : Option Char :=
  if c = '"' then some '"'
  else if c = '\\' then some '\\'
  else if c = '/' then some '/'
  else if c = 'n' then some '\n'
  else if c = 't' then some '\t'
  else if c = 'r' then some '\r'
  else if c = 'b' then some (Char.ofNat 8)
  else if c = 'f' then some (Char.ofNat 12)
  else none

/-- Parse the body of a JSON string literal (the opening quote already
consumed), returning the decoded characters and the remaining input. -/
def parseStringBody : List Char → Option (List Char × List Char)
  | [] => none
  | '"' :: cs => some ([], cs)
  | '\\' :: e :: cs =>
    match escChar e with
    | none => none
    | some ec =>
      match parseStringBody cs with
      | none => none
      | some (out, rest) => some (ec :: out, rest)
  | c :: cs =>
    match parseStringBody cs with
    | none => none
    | some (out, rest) => some (c :: out, rest)

/-- Take a maximal run of decimal digits, returned as digit values. -/
def takeDigits : List Char → List Nat × List Char
  | [] => ([], [])
  | c :: cs =>
    if c.isDigit then
      let p := takeDigits cs
      ((c.toNat - 48) :: p.1, p.2)
    else ([], c :: cs)

/-- Assemble a decimal digit list into a natural number. -/
def natOfDigits (ds : List Nat) : Nat := ds.foldl (fun a d => a * 10 + d) 0

/-- Parse a nonnegative integer literal; a following '.', 'e' or 'E'
(fractional or exponent syntax, outside the modelled fragment) fails. -/
def parseNat (s : List Char) : Option (Nat × List Char) :=
  let p := takeDigits s
  if p.1.isEmpty then none
  else
    match p.2 with
    | '.' :: _ => none
    | 'e' :: _ => none
    | 'E' :: _ => none
    | _ => some (natOfDigits p.1, p.2)

/-- Parse a JSON integer literal with optional leading minus sign. -/
def parseNum (s : List Char) : Option (JVal × List Char) :=
  match s with
  | '-' :: rest =>
    match parseNat rest with
    | some (n, r) => some (JVal.num (-(n : Int)), r)
    | none => none
  | _ =>
    match parseNat s with
    | some (n, r) => some (JVal.num (n : Int), r)
    | none => none

mutual

/-- Fuel-indexed JSON value parser. -/
def parseVal : Nat → List Char → Option (JVal × List Char)
  | 0, _ => none
  | Nat.succ fuel, s =>
    match skipWs s with
    | 'n' :: 'u' :: 'l' :: 'l' :: r => some (JVal.null, r)
    | 't' :: 'r' :: 'u' :: 'e' :: r => some (JVal.bool true, r)
    | 'f' :: 'a' :: 'l' :: 's' :: 'e' :: r => some (JVal.bool false, r)
    | '"' :: r =>
      match parseStringBody r with
      | some (cs, rest) => some (JVal.str (String.mk cs), rest)
      | none => none
    | '[' :: r =>
      match skipWs r with
      | ']' :: rest => some (JVal.arr [], rest)
      | r2 =>
        match parseItems fuel r2 with
        | some (vs, rest) => some (JVal.arr vs, rest)
        | none => none
    | '{' :: r =>
      match skipWs r with
      | '}' :: rest => some (JVal.obj [], rest)
      | r2 =>
        match parseFields fuel r2 with
        | some (fs, rest) => some (JVal.obj fs, rest)
        | none => none
    | s2 => parseNum s2

/-- Parse one or more comma-separated array items up to ']'. -/
def parseItems : Nat → List Char → Option (List JVal × List Char)
  | 0, _ => none
  | Nat.succ fuel, s =>
    match parseVal fuel s with
    | none => none
    | some (v, rest) =>
      match skipWs rest with
      | ',' :: r2 =>
        match parseItems fuel r2 with
        | some (vs, r3) => some (v :: vs, r3)
        | none => none
      | ']' :: r2 => some ([v], r2)
      | _ => none

/-- Parse one or more comma-separated object members up to the closing
brace. -/
def parseFields : Nat → List Char → Option (List (String × JVal) × List Char)
  | 0, _ => none
  | Nat.succ fuel, s =>
    match skipWs s with
    | '"' :: r =>
      match parseStringBody r with
      | none => none
      | some (kcs, r1) =>
        match skipWs r1 with
        | ':' :: r2 =>
          match parseVal fuel r2 with
          | none => none
          | some (v, r3) =>
            match skipWs r3 with
            | ',' :: r4 =>
              match parseFields fuel r4 with
              | some (fs, r5) => some ((String.mk kcs, v) :: fs, r5)
              | none => none
            | '}' :: r4 => some ([(String.mk kcs, v)], r4)
            | _ => none
        | _ => none
    | _ => none

end

/-- Model of `JSON.parse`: parse a complete JSON value, rejecting
trailing non-whitespace (as `JSON.parse` does). -/
def parseJson (s : List Char) : Option JVal :=
  match parseVal (s.length + 1) s with
  | some (v, rest) => if skipWs rest = [] then some v else none
  | none => none

/-!
## Analysis Service (`supabase/functions/analyze-symptoms/index.ts`)
-/

/-- The single upstream fetch, reduced to what the handler inspects: the
HTTP status and — when the response is consumed — the model's raw text
reply `data.choices[0].message.content`. -/
structure UpstreamReply where
  status : Nat
  content : String

/-- `Response.ok` of the Fetch API: status in the range 200–299. -/
def respOk (status : Nat) : Bool := 200 ≤ status && status ≤ 299

/-- The semantics of `aiResponse.match(/\x7b[\s\S]*\x7d/)`: the regex is
greedy, so the (leftmost-longest) match runs from the first opening brace
through the last closing brace of the text, provided that closing brace
comes strictly after the opening one; otherwise there is no match. -/
def jsonMatch (s : String) : Option String :=
  let t := s.data.dropWhile (fun c => c ≠ '{')
  let r := (t.reverse.dropWhile (fun c => c ≠ '}')).reverse
  if 2 ≤ r.length then some (String.mk r) else none

/-- The inner try-block of the handler: extract the brace-delimited span
and `JSON.parse` it; `none` is any failure (no match, or a parse error),
which the handler turns into the fallback object. -/
def extractAnalysis (content : String) : Option JVal :=
  match jsonMatch content with
  | some m => parseJson m.data
  | none => none

/-- The hard-coded fallback analysis object substituted on any
extraction or parse failure. -/
def fallbackAnalysis : JVal :=
  JVal.obj
    [ ("conditions", JVal.arr
        [ JVal.obj
            [ ("name", JVal.str "Multiple Symptoms")
            , ("probability", JVal.num 60)
            , ("explanation", JVal.str "Based on the symptoms provided, we recommend consulting a healthcare professional for proper evaluation.")
            ]
        ])
    , ("riskLevel", JVal.str "medium")
    , ("recommendations", JVal.arr
        [ JVal.str "Consult a healthcare professional"
        , JVal.str "Monitor your symptoms"
        , JVal.str "Stay hydrated and rest"
        ])
    , ("disclaimer", JVal.str "This is not a medical diagnosis. Please consult a healthcare professional for proper evaluation.")
    ]

/-- A JSON error body of the shape the handler builds everywhere. -/
def errorBody (msg : String) : JVal := JVal.obj [("error", JVal.str msg)]

/-- An HTTP response of the edge function: status plus JSON body (a
`Response` built with no explicit status has status 200). -/
structure HttpResponse where
  status : Nat
  body : JVal

/-- The handler's observable outcome: the response it returns, and the
upstream fetch it performed, if any (recorded as the symptom list that
fed the request's user message). -/
structure ServiceOutcome where
  response : HttpResponse
  upstreamRequest : Option (List String)

/-- The `serve` handler of `analyze-symptoms/index.ts` after the CORS
pre-flight branch: the credential check, the upstream status mapping, the
greedy JSON extraction with its fallback, and the top-level catch that
turns a thrown error's message into a status-500 JSON body.  `symptoms`
is the decoded request body; it only feeds the upstream prompt. -/
def analyzeSymptoms (apiKey : Option String) (symptoms : List String)
    (upstream : UpstreamReply) : ServiceOutcome :=
  match apiKey with
  | none =>
    { response := { status := 500, body := errorBody "LOVABLE_API_KEY is not configured" }
      upstreamRequest := none }
  | some _ =>
    if respOk upstream.status then
      { response :=
          { status := 200
            body := (extractAnalysis upstream.content).getD fallbackAnalysis }
        upstreamRequest := some symptoms }
    else if upstream.status = 429 then
      { response := { status := 429, body := errorBody "Rate limit exceeded. Please try again later." }
        upstreamRequest := some symptoms }
    else if upstream.status = 402 then
      { response := { status := 402, body := errorBody "AI credits exhausted. Please add credits to continue." }
        upstreamRequest := some symptoms }
    else
      { response := { status := 500, body := errorBody ("AI gateway error: " ++ toString upstream.status) }
        upstreamRequest := some symptoms }

/-!
## Spec-side definitions

These follow the specification's words (not the source), to be compared
against the behaviour of the embedded code.
-/

/-- Spec-side: is this JSON value a string drawn from the risk-level
enumeration low/medium/high? -/
def isRiskLevelStr (v : JVal) : Bool :=
  match v with
  | JVal.str s => s == "low" || s == "medium" || s == "high"
  | _ => false

/-- Spec-side: one condition entry of the contracted shape, with a
string name, an integer probability within 0–100, and a string
explanation. -/
def conditionOk (c : JVal) : Bool :=
  (match JVal.lookup c "name" with
   | some (JVal.str _) => true
   | _ => false)
  && (match JVal.lookup c "probability" with
      | some (JVal.num n) => decide (0 ≤ n) && decide (n ≤ 100)
      | _ => false)
  && (match JVal.lookup c "explanation" with
      | some (JVal.str _) => true
      | _ => false)

/-- Spec-side: the body property asserted for every success response —
a riskLevel in the low/medium/high enumeration and a conditions list of
length at most 3 whose probabilities all lie in 0–100. -/
def claimedBodyOk (v : JVal) : Bool :=
  (match JVal.lookup v "riskLevel" with
   | some r => isRiskLevelStr r
   | none => false)
  && (match JVal.lookup v "conditions" with
      | some (JVal.arr xs) =>
        decide (xs.length ≤ 3)
        && xs.all (fun c =>
             match JVal.lookup c "probability" with
             | some (JVal.num n) => decide (0 ≤ n) && decide (n ≤ 100)
             | _ => false)
      | _ => false)

/-- Spec-side: the full expected risk-assessment shape of the contract —
`claimedBodyOk` plus well-typed condition entries, a recommendations
array of strings, and a string disclaimer. -/
def expectedShape (v : JVal) : Bool :=
  claimedBodyOk v
  && (match JVal.lookup v "conditions" with
      | some (JVal.arr xs) => xs.all conditionOk
      | _ => false)
  && (match JVal.lookup v "recommendations" with
      | some (JVal.arr rs) => rs.all (fun r =>
          match r with
          | JVal.str _ => true
          | _ => false)
      | _ => false)
  && (match JVal.lookup v "disclaimer" with
      | some (JVal.str _) => true
      | _ => false)

/-- Brace-depth scanner used by `firstBalancedSpan`: walk the input
(which starts at an opening brace), keeping the traversed characters,
and stop at the closing brace that balances the first opening one. -/
def balancedScan : List Char → Nat → List Char → Option (List Char)
  | [], _, _ => none
  | c :: cs, depth, acc =>
    if c = '{' then balancedScan cs (depth + 1) (c :: acc)
    else if c = '}' then
      if depth ≤ 1 then some (c :: acc).reverse
      else balancedScan cs (depth - 1) (c :: acc)
    else balancedScan cs depth (c :: acc)

/-- Spec-side: "locate the first balanced brace-delimited span via
pattern matching" — the span from the first opening brace to the
matching closing brace, by depth counting. -/
def firstBalancedSpan (s : String) : Option String :=
  match s.data.dropWhile (fun c => c ≠ '{') with
  | [] => none
  | l => (balancedScan l 0 []).map String.mk

/-- Spec-side: is this JSON value a non-empty string? -/
def isNonEmptyStr (v : JVal) : Bool :=
  match v with
  | JVal.str s => s != ""
  | _ => false

/-!
## Intake Handler (`handleSubmit` of the symptom-submission page)

The flow is modelled as a function from the outcomes of its external
calls (auth lookup, the two database inserts, the edge-function
invocation) to the ordered list of observable events it performs.
-/

/-- JavaScript truthiness of a JSON value. -/
def truthy : JVal → Bool
  | JVal.null => false
  | JVal.bool b => b
  | JVal.num n => n != 0
  | JVal.str s => s != ""
  | JVal.arr _ => true
  | JVal.obj _ => true

/-- JavaScript property access `a.k`: the field's value, or undefined
(modelled as `null`, which is equally falsy) when absent. -/
def jsField (a : JVal) (k : String) : JVal :=
  (JVal.lookup a k).getD JVal.null

/-- Line 95 of the submission page: `analysis.riskLevel || 'medium'` —
the riskLevel field if truthy, else the string "medium". -/
def storedRiskLevel (analysis : JVal) : JVal :=
  if truthy (jsField analysis "riskLevel") then jsField analysis "riskLevel"
  else JVal.str "medium"

/-- `notes || null` of the symptom-entry insert. -/
def mkNotes (notes : String) : Option String :=
  if notes = "" then none else some notes

/-- The observable events of one submission, in program order. -/
inductive Event where
  | insertEntry (symptoms : List String) (notes : Option String) (ok : Bool)
  | callAnalysis (symptoms : List String)
  | insertAssessment (entryId : String) (riskLevel : JVal)
  | logAssessmentError
  | navigateAuth
  | toastError (msg : String)
  | toastSuccess
  | setResult (analysis : JVal)

/-- Outcomes of the external calls `handleSubmit` makes, supplied as an
environment: the authenticated user (if any), the symptom-entry insert
result (error message, or the new row id), the edge-function invocation
result, and the risk-assessment insert error (if any). -/
structure SubmitEnv where
  user : Option String
  entryInsert : Except String String
  analysisError : Option String
  analysis : Option JVal
  assessmentInsertError : Option String

/-- Did the symptom-entry insert succeed? -/
def insertOk : Except String String → Bool
  | Except.ok _ => true
  | Except.error _ => false

/-- The `handleSubmit` flow: guard on an empty selection, redirect when
unauthenticated, insert the symptom entry (throwing to the catch block
on error), invoke the analysis function, then either toast the analysis
error or insert the risk assessment (logging, not surfacing, its
failure) and store the result for display; the success toast runs on
every non-throwing path. -/
def handleSubmit (selectedSymptoms : List String) (notes : String)
    (env : SubmitEnv) : List Event :=
  if selectedSymptoms.isEmpty then [Event.toastError "Please select at least one symptom"]
  else
    match env.user with
    | none => [Event.navigateAuth]
    | some _ =>
      match env.entryInsert with
      | Except.error e =>
        [Event.insertEntry selectedSymptoms (mkNotes notes) false, Event.toastError e]
      | Except.ok entryId =>
        Event.insertEntry selectedSymptoms (mkNotes notes) true ::
        Event.callAnalysis selectedSymptoms ::
        (match env.analysisError, env.analysis with
         | some _, _ => [Event.toastError "Failed to get AI analysis", Event.toastSuccess]
         | none, some a =>
           Event.insertAssessment entryId (storedRiskLevel a) ::
           ((if env.assessmentInsertError.isSome then [Event.logAssessmentError] else [])
             ++ [Event.setResult a, Event.toastSuccess])
         | none, none => [Event.toastSuccess])

/-- Is this event a symptom-entry insert? -/
def isEntryInsert : Event → Bool
  | Event.insertEntry _ _ _ => true
  | _ => false

/-- Is this event an invocation of the Analysis Service? -/
def isAnalysisCall : Event → Bool
  | Event.callAnalysis _ => true
  | _ => false

/-- Number of symptom-entry insert operations in a trace. -/
def countEntryInserts (es : List Event) : Nat := (es.filter isEntryInsert).length

/-- Number of Analysis Service invocations in a trace. -/
def countAnalysisCalls (es : List Event) : Nat := (es.filter isAnalysisCall).length

/-!
## Dashboard (`src/pages/Dashboard.tsx`)
-/

/-- A `symptom_entries` row as the dashboard reads it. -/
structure EntryRow where
  id : String
  symptoms : List String
  notes : Option String
  created_at : String

/-- A `risk_assessments` row as the dashboard reads it. -/
structure AssessmentRow where
  id : String
  predictions : JVal
  risk_level : String
  created_at : String
  symptom_entry_id : String

/-- Creation-time-descending order on entry rows (the `order by
created_at desc` of the entries query; timestamps compare as strings). -/
def entryMoreRecent (a b : EntryRow) : Prop := b.created_at ≤ a.created_at

instance : DecidableRel entryMoreRecent :=
  fun a b => inferInstanceAs (Decidable (b.created_at ≤ a.created_at))

instance : IsTotal EntryRow entryMoreRecent :=
  ⟨fun a b => (le_total a.created_at b.created_at).symm⟩

instance : IsTrans EntryRow entryMoreRecent :=
  ⟨fun _ _ _ h1 h2 => le_trans h2 h1⟩

/-- Creation-time-descending order on assessment rows. -/
def assessMoreRecent (a b : AssessmentRow) : Prop := b.created_at ≤ a.created_at

instance : DecidableRel assessMoreRecent :=
  fun a b => inferInstanceAs (Decidable (b.created_at ≤ a.created_at))

instance : IsTotal AssessmentRow assessMoreRecent :=
  ⟨fun a b => (le_total a.created_at b.created_at).symm⟩

instance : IsTrans AssessmentRow assessMoreRecent :=
  ⟨fun _ _ _ h1 h2 => le_trans h2 h1⟩

/-- The dashboard's two read queries: each table's rows ordered by
created_at descending, limited to 10. -/
def fetchDashboardData (dbEntries : List EntryRow) (dbAssessments : List AssessmentRow) :
    List EntryRow × List AssessmentRow :=
  ((List.insertionSort entryMoreRecent dbEntries).take 10,
   (List.insertionSort assessMoreRecent dbAssessments).take 10)

/-- Wrap a CSV field in double quotes, as the export does for the
Symptoms and Notes columns. -/
def quoteField (s : String) : String := "\"" ++ s ++ "\""

/-- The Risk Level column of one export row:
`assessment?.risk_level || "N/A"` over the first assessment whose
symptom_entry_id matches the entry. -/
def riskCell (assessments : List AssessmentRow) (e : EntryRow) : String :=
  match assessments.find? (fun a => a.symptom_entry_id == e.id) with
  | some a => if a.risk_level = "" then "N/A" else a.risk_level
  | none => "N/A"

/-- One CSV data row of the export: Date (locale-formatted creation
time), quoted comma-joined Symptoms, Risk Level, quoted Notes. -/
def exportRow (assessments : List AssessmentRow) (fmtDate : String → String)
    (e : EntryRow) : String :=
  String.intercalate ","
    [ fmtDate e.created_at
    , quoteField (String.intercalate ", " e.symptoms)
    , riskCell assessments e
    , quoteField (e.notes.getD "")
    ]

/-- The lines of the export CSV: the header row, then one row per
loaded symptom entry. -/
def exportLines (entries : List EntryRow) (assessments : List AssessmentRow)
    (fmtDate : String → String) : List String :=
  String.intercalate "," ["Date", "Symptoms", "Risk Level", "Notes"] ::
    entries.map (exportRow assessments fmtDate)

/-- `exportData`: the generated CSV text and the download filename,
which embeds the current date (`today`, the date part of the current
ISO timestamp). -/
def exportData (entries : List EntryRow) (assessments : List AssessmentRow)
    (fmtDate : String → String) (today : String) : String × String :=
  (String.intercalate "\n" (exportLines entries assessments fmtDate),
   "symptom-tracker-" ++ today ++ ".csv")

/-- Helper projection separating JSON objects by their riskLevel string;
used to tell concrete analysis objects apart without decidable equality
on `JVal`. -/
def riskLevelStrOf (v : JVal) : String :=
  match JVal.lookup v "riskLevel" with
  | some (JVal.str s) => s
  | _ => ""

/-- An upstream 200 reply whose only brace-delimited span is a JSON
object of an unexpected shape: riskLevel "extreme", no conditions. -/
def badShapeReply : String := "\x7b\"riskLevel\":\"extreme\"\x7d"

/-- An upstream 200 reply containing a parseable JSON object of the
expected shape, followed by one stray closing brace. -/
def trailingBraceReply : String :=
  "\x7b\"conditions\":[\x7b\"name\":\"Flu\",\"probability\":70,\"explanation\":\"e\"\x7d],\"riskLevel\":\"low\",\"recommendations\":[\"rest\"],\"disclaimer\":\"d\"\x7d \x7d"

/-- The first balanced brace-delimited span of `trailingBraceReply`. -/
def embeddedObjSpan : String :=
  "\x7b\"conditions\":[\x7b\"name\":\"Flu\",\"probability\":70,\"explanation\":\"e\"\x7d],\"riskLevel\":\"low\",\"recommendations\":[\"rest\"],\"disclaimer\":\"d\"\x7d"

/-- The JSON object embedded in `trailingBraceReply`. -/
def embeddedObj : JVal :=
  JVal.obj
    [ ("conditions", JVal.arr [JVal.obj
        [("name", JVal.str "Flu"), ("probability", JVal.num 70), ("explanation", JVal.str "e")]])
    , ("riskLevel", JVal.str "low")
    , ("recommendations", JVal.arr [JVal.str "rest"])
    , ("disclaimer", JVal.str "d")
    ]

/-!
## Theorems
-/

/-- C1: if extraction or parsing of the upstream model's text reply
fails for any reason, the Analysis Service does not fail the request: it
returns, with success (200) status, exactly the fixed fallback object —
one condition named "Multiple Symptoms" at probability 60, riskLevel
"medium", three generic recommendations, and the standard disclaimer. -/
theorem parse_failure_returns_fallback
    (key : String) (syms : List String) (up : UpstreamReply)
    (hok : respOk up.status = true)
    (hfail : extractAnalysis up.content = none) :
    (analyzeSymptoms (some key) syms up).response =
      { status := 200, body := fallbackAnalysis }
    ∧ JVal.lookup fallbackAnalysis "riskLevel" = some (JVal.str "medium")
    ∧ JVal.lookup fallbackAnalysis "conditions" =
        some (JVal.arr [JVal.obj
          [ ("name", JVal.str "Multiple Symptoms")
          , ("probability", JVal.num 60)
          , ("explanation", JVal.str "Based on the symptoms provided, we recommend consulting a healthcare professional for proper evaluation.")
          ]])
    ∧ (match JVal.lookup fallbackAnalysis "recommendations" with
       | some (JVal.arr rs) => rs.length
       | _ => 0) = 3
    ∧ JVal.lookup fallbackAnalysis "disclaimer" =
        some (JVal.str "This is not a medical diagnosis. Please consult a healthcare professional for proper evaluation.") := by
  refine ⟨?_, rfl, rfl, rfl, rfl⟩
  simp [analyzeSymptoms, hok, hfail]

/-- Witness for C1: a 200 upstream reply with no brace-delimited JSON
at all yields the fallback with success status. -/
theorem parse_failure_returns_fallback_witness :
    (analyzeSymptoms (some "key") ["Fever", "Cough"]
        { status := 200, content := "Please consult a doctor." }).response =
      { status := 200, body := fallbackAnalysis } :=
  (parse_failure_returns_fallback "key" ["Fever", "Cough"]
    { status := 200, content := "Please consult a doctor." } rfl rfl).1

/-- C4: upstream 429 maps to a 429 rate-limit response, upstream 402 to
a 402 quota response, and any other non-success upstream status to a
500 response whose JSON error body carries the gateway-error message. -/
theorem upstream_error_status_mapping
    (key : String) (syms : List String) (up : UpstreamReply)
    (hnok : respOk up.status = false) :
    (up.status = 429 →
      (analyzeSymptoms (some key) syms up).response =
        { status := 429, body := errorBody "Rate limit exceeded. Please try again later." })
    ∧ (up.status = 402 →
      (analyzeSymptoms (some key) syms up).response =
        { status := 402, body := errorBody "AI credits exhausted. Please add credits to continue." })
    ∧ (up.status ≠ 429 → up.status ≠ 402 →
      (analyzeSymptoms (some key) syms up).response =
        { status := 500, body := errorBody ("AI gateway error: " ++ toString up.status) }) := by
  refine ⟨?_, ?_, ?_⟩
  · intro h
    simp [analyzeSymptoms, respOk, hnok, h]
  · intro h
    simp [analyzeSymptoms, respOk, hnok, h]
  · intro h1 h2
    simp [analyzeSymptoms, hnok, h1, h2]

/-- Witness for C4: a concrete 429 upstream reply produces the 429
rate-limit response. -/
theorem upstream_error_status_mapping_witness :
    (analyzeSymptoms (some "key") ["Fever"] { status := 429, content := "slow down" }).response =
      { status := 429, body := errorBody "Rate limit exceeded. Please try again later." } :=
  (upstream_error_status_mapping "key" ["Fever"]
    { status := 429, content := "slow down" } rfl).1 rfl

/-- C6: with no upstream API credential in the environment, the service
returns a status-500 JSON error body carrying the configuration-error
message, and performs no upstream request at all. -/
theorem missing_credential_returns_config_error (syms : List String) (up : UpstreamReply) :
    analyzeSymptoms none syms up =
      { response := { status := 500, body := errorBody "LOVABLE_API_KEY is not configured" }
        upstreamRequest := none } := rfl

/-- C2 counterexample: an upstream 200 reply carrying a parseable JSON
object of the wrong shape is passed through unvalidated — the success
response body has riskLevel "extreme" and no conditions list, violating
the claimed bounds. -/
theorem success_body_shape_counterexample :
    (analyzeSymptoms (some "key") ["Fever"]
        { status := 200, content := badShapeReply }).response.status = 200
    ∧ claimedBodyOk (analyzeSymptoms (some "key") ["Fever"]
        { status := 200, content := badShapeReply }).response.body = false :=
  ⟨rfl, rfl⟩

/-- C2 amended: for every non-empty symptom list and every upstream
success reply, the service's success response (status 200) carries
either the object parsed from the reply's extracted span — returned
verbatim, with no shape validation — or the fixed fallback object; the
claimed riskLevel/conditions/probability bounds are guaranteed whenever
the fallback is used, and the fallback satisfies them. -/
theorem success_body_parsed_or_fallback
    (key : String) (syms : List String) (up : UpstreamReply)
    (hne : syms ≠ []) (hok : respOk up.status = true) :
    (analyzeSymptoms (some key) syms up).response.status = 200
    ∧ ((analyzeSymptoms (some key) syms up).response.body = fallbackAnalysis
        ∨ extractAnalysis up.content =
            some ((analyzeSymptoms (some key) syms up).response.body))
    ∧ (extractAnalysis up.content = none →
        (analyzeSymptoms (some key) syms up).response.body = fallbackAnalysis)
    ∧ claimedBodyOk fallbackAnalysis = true := by
  have hb : (analyzeSymptoms (some key) syms up).response.body
      = (extractAnalysis up.content).getD fallbackAnalysis := by
    simp [analyzeSymptoms, hok]
  refine ⟨by simp [analyzeSymptoms, hok], ?_, ?_, rfl⟩
  · cases h : extractAnalysis up.content with
    | none => exact Or.inl (by rw [hb, h]; rfl)
    | some v => exact Or.inr (by rw [hb, h]; rfl)
  · intro h
    rw [hb, h]
    rfl

/-- Witness for C2 amended: a plain-text 200 reply falls back, and the
fallback meets the claimed bounds. -/
theorem success_body_parsed_or_fallback_witness :
    (analyzeSymptoms (some "key") ["Fever"] { status := 200, content := "hello" }).response.status = 200
    ∧ ((analyzeSymptoms (some "key") ["Fever"] { status := 200, content := "hello" }).response.body = fallbackAnalysis
        ∨ extractAnalysis "hello" =
            some ((analyzeSymptoms (some "key") ["Fever"] { status := 200, content := "hello" }).response.body))
    ∧ (extractAnalysis "hello" = none →
        (analyzeSymptoms (some "key") ["Fever"] { status := 200, content := "hello" }).response.body = fallbackAnalysis)
    ∧ claimedBodyOk fallbackAnalysis = true :=
  success_body_parsed_or_fallback "key" ["Fever"] { status := 200, content := "hello" }
    (by decide) rfl

/-- C3 counterexample: on a reply holding a well-shaped JSON object
followed by a stray closing brace, the greedy regex span differs from
the first balanced span, the parse of the greedy span fails, and the
service returns the fallback instead of the embedded object. -/
theorem greedy_extraction_counterexample :
    jsonMatch trailingBraceReply ≠ firstBalancedSpan trailingBraceReply
    ∧ firstBalancedSpan trailingBraceReply = some embeddedObjSpan
    ∧ parseJson embeddedObjSpan.data = some embeddedObj
    ∧ expectedShape embeddedObj = true
    ∧ (analyzeSymptoms (some "key") ["Fever"]
        { status := 200, content := trailingBraceReply }).response.body = fallbackAnalysis
    ∧ (analyzeSymptoms (some "key") ["Fever"]
        { status := 200, content := trailingBraceReply }).response.body ≠ embeddedObj := by
  refine ⟨by decide, rfl, rfl, rfl, rfl, ?_⟩
  intro h
  exact absurd (congrArg riskLevelStrOf h) (by decide)

/-- C3 amended: the service extracts the span of the reply running from
the first opening brace through the last closing brace (the extraction
regex is greedy), not the first balanced span; whenever that greedy span
parses as JSON, the service's success output is exactly the parsed
object. -/
theorem parsed_greedy_span_passthrough
    (key : String) (syms : List String) (up : UpstreamReply) (m : String) (v : JVal)
    (hok : respOk up.status = true)
    (hm : jsonMatch up.content = some m)
    (hv : parseJson m.data = some v) :
    (analyzeSymptoms (some key) syms up).response = { status := 200, body := v } := by
  simp [analyzeSymptoms, hok, extractAnalysis, hm, hv]

/-- Witness for C3 amended: a reply whose greedy span is a lone JSON
object is passed through verbatim. -/
theorem parsed_greedy_span_passthrough_witness :
    (analyzeSymptoms (some "key") ["Fever"]
        { status := 200, content := "ok \x7b\"a\":1\x7d" }).response =
      { status := 200, body := JVal.obj [("a", JVal.num 1)] } :=
  parsed_greedy_span_passthrough "key" ["Fever"]
    { status := 200, content := "ok \x7b\"a\":1\x7d" }
    "\x7b\"a\":1\x7d" (JVal.obj [("a", JVal.num 1)]) rfl rfl rfl

/-- C5: for every authenticated submission with a non-empty selected
symptom set, the flow's first action is the single symptom-entry insert
(carrying exactly the selected labels), performed before any Analysis
Service invocation; if that insert fails the flow aborts with no
analysis call, and if it succeeds the analysis is called exactly once,
whatever its outcome. -/
theorem submit_entry_before_analysis
    (syms : List String) (notes : String) (env : SubmitEnv) (uid : String)
    (hne : syms ≠ []) (huser : env.user = some uid) :
    (handleSubmit syms notes env).head? =
      some (Event.insertEntry syms (mkNotes notes) (insertOk env.entryInsert))
    ∧ countEntryInserts (handleSubmit syms notes env) = 1
    ∧ (insertOk env.entryInsert = false →
        countAnalysisCalls (handleSubmit syms notes env) = 0)
    ∧ (insertOk env.entryInsert = true →
        countAnalysisCalls (handleSubmit syms notes env) = 1) := by
  have h0 : syms.isEmpty = false := by
    cases syms with
    | nil => exact absurd rfl hne
    | cons a l => rfl
  cases henv : env.entryInsert with
  | error e =>
    simp [handleSubmit, h0, huser, henv, insertOk, countEntryInserts,
      countAnalysisCalls, isEntryInsert, isAnalysisCall]
  | ok entryId =>
    cases hae : env.analysisError with
    | some e =>
      simp [handleSubmit, h0, huser, henv, hae, insertOk, countEntryInserts,
        countAnalysisCalls, isEntryInsert, isAnalysisCall]
    | none =>
      cases ha : env.analysis with
      | none =>
        simp [handleSubmit, h0, huser, henv, hae, ha, insertOk, countEntryInserts,
          countAnalysisCalls, isEntryInsert, isAnalysisCall]
      | some a =>
        cases hassm : env.assessmentInsertError with
        | none =>
          simp [handleSubmit, h0, huser, henv, hae, ha, hassm, insertOk,
            countEntryInserts, countAnalysisCalls, isEntryInsert, isAnalysisCall]
        | some m =>
          simp [handleSubmit, h0, huser, henv, hae, ha, hassm, insertOk,
            countEntryInserts, countAnalysisCalls, isEntryInsert, isAnalysisCall]

/-- A submission environment where every external call succeeds. -/
def envOk : SubmitEnv :=
  { user := some "u1"
    entryInsert := Except.ok "e1"
    analysisError := none
    analysis := some fallbackAnalysis
    assessmentInsertError := none }

/-- Witness for C5: on a concrete all-success submission of two
symptoms, the insert is first, happens once, and the analysis is called
exactly once. -/
theorem submit_entry_before_analysis_witness :
    (handleSubmit ["Fever", "Cough"] "" envOk).head? =
      some (Event.insertEntry ["Fever", "Cough"] (mkNotes "") (insertOk envOk.entryInsert))
    ∧ countEntryInserts (handleSubmit ["Fever", "Cough"] "" envOk) = 1
    ∧ (insertOk envOk.entryInsert = false →
        countAnalysisCalls (handleSubmit ["Fever", "Cough"] "" envOk) = 0)
    ∧ (insertOk envOk.entryInsert = true →
        countAnalysisCalls (handleSubmit ["Fever", "Cough"] "" envOk) = 1) :=
  submit_entry_before_analysis ["Fever", "Cough"] "" envOk "u1" (by decide) rfl

/-- C7: when the risk-assessment insert fails after a successful
analysis call, the handler logs the error, never surfaces an error
toast, and still stores the in-memory analysis result for display — the
full trace also shows the success toast still firing. -/
theorem assessment_failure_logged_not_surfaced
    (syms : List String) (notes : String) (env : SubmitEnv)
    (uid entryId errMsg : String) (a : JVal)
    (hne : syms ≠ []) (huser : env.user = some uid)
    (hentry : env.entryInsert = Except.ok entryId)
    (hnoAerr : env.analysisError = none) (ha : env.analysis = some a)
    (hfail : env.assessmentInsertError = some errMsg) :
    handleSubmit syms notes env =
      [ Event.insertEntry syms (mkNotes notes) true
      , Event.callAnalysis syms
      , Event.insertAssessment entryId (storedRiskLevel a)
      , Event.logAssessmentError
      , Event.setResult a
      , Event.toastSuccess ]
    ∧ (∀ m, Event.toastError m ∉ handleSubmit syms notes env) := by
  have h0 : syms.isEmpty = false := by
    cases syms with
    | nil => exact absurd rfl hne
    | cons x l => rfl
  constructor
  · simp [handleSubmit, h0, huser, hentry, hnoAerr, ha, hfail]
  · intro m
    simp [handleSubmit, h0, huser, hentry, hnoAerr, ha, hfail]

/-- A submission environment whose risk-assessment insert fails after a
successful analysis. -/
def envAssessFail : SubmitEnv :=
  { user := some "u1"
    entryInsert := Except.ok "e1"
    analysisError := none
    analysis := some fallbackAnalysis
    assessmentInsertError := some "row violates policy" }

/-- Witness for C7: the concrete trace when the assessment insert
fails — logged, result stored, success toast, no error toast. -/
theorem assessment_failure_logged_not_surfaced_witness :
    handleSubmit ["Fever"] "mild" envAssessFail =
      [ Event.insertEntry ["Fever"] (mkNotes "mild") true
      , Event.callAnalysis ["Fever"]
      , Event.insertAssessment "e1" (storedRiskLevel fallbackAnalysis)
      , Event.logAssessmentError
      , Event.setResult fallbackAnalysis
      , Event.toastSuccess ] :=
  (assessment_failure_logged_not_surfaced ["Fever"] "mild" envAssessFail
    "u1" "e1" "row violates policy" fallbackAnalysis (by decide) rfl rfl rfl rfl rfl).1

/-- A submission environment whose analysis reply carries a numeric
riskLevel field. -/
def envNumericRisk : SubmitEnv :=
  { user := some "u1"
    entryInsert := Except.ok "e1"
    analysisError := none
    analysis := some (JVal.obj [("riskLevel", JVal.num 5)])
    assessmentInsertError := none }

/-- C10 counterexample: an analysis object whose riskLevel is the
number 5 is truthy, so the handler stores the number itself — not a
string at all — as the row's risk_level. -/
theorem numeric_risk_level_counterexample :
    storedRiskLevel (JVal.obj [("riskLevel", JVal.num 5)]) = JVal.num 5
    ∧ isNonEmptyStr (storedRiskLevel (JVal.obj [("riskLevel", JVal.num 5)])) = false
    ∧ handleSubmit ["Fever"] "" envNumericRisk =
      [ Event.insertEntry ["Fever"] none true
      , Event.callAnalysis ["Fever"]
      , Event.insertAssessment "e1" (JVal.num 5)
      , Event.setResult (JVal.obj [("riskLevel", JVal.num 5)])
      , Event.toastSuccess ] :=
  ⟨rfl, rfl, rfl⟩

/-- C10 amended: the handler stores `analysis.riskLevel` when that
field is truthy and the string "medium" otherwise; in particular
"medium" is substituted whenever the field is missing, null, or the
empty string, and whenever the field is absent or a string the persisted
value is a non-empty string — but a truthy non-string riskLevel is
stored unchanged. -/
theorem stored_risk_level_substitution (a : JVal) :
    (truthy (jsField a "riskLevel") = false → storedRiskLevel a = JVal.str "medium")
    ∧ (JVal.lookup a "riskLevel" = none → storedRiskLevel a = JVal.str "medium")
    ∧ (JVal.lookup a "riskLevel" = some (JVal.str "") → storedRiskLevel a = JVal.str "medium")
    ∧ (∀ s, JVal.lookup a "riskLevel" = some (JVal.str s) →
        isNonEmptyStr (storedRiskLevel a) = true)
    ∧ (truthy (jsField a "riskLevel") = true → storedRiskLevel a = jsField a "riskLevel") := by
  refine ⟨?_, ?_, ?_, ?_, ?_⟩
  · intro h
    simp [storedRiskLevel, h]
  · intro h
    simp [storedRiskLevel, jsField, h, truthy]
  · intro h
    simp [storedRiskLevel, jsField, h, truthy]
  · intro s h
    by_cases hs : s = ""
    · subst hs
      simp [storedRiskLevel, jsField, h, truthy, isNonEmptyStr]
    · simp [storedRiskLevel, jsField, h, truthy, hs, isNonEmptyStr]
  · intro h
    simp [storedRiskLevel, h]

/-- Witness for C10 amended: an analysis object with no riskLevel field
gets "medium". -/
theorem stored_risk_level_substitution_witness :
    storedRiskLevel (JVal.obj [("conditions", JVal.arr [])]) = JVal.str "medium" :=
  (stored_risk_level_substitution (JVal.obj [("conditions", JVal.arr [])])).2.1 rfl

/-- C8: the export has a header row plus exactly one row per loaded
symptom entry; an entry with no matching assessment shows "N/A" in its
Risk Level column, a matched entry shows the assessment's (non-empty)
risk level, and the generated filename embeds the current date. -/
theorem export_csv_shape (entries : List EntryRow) (assessments : List AssessmentRow)
    (fmtDate : String → String) (today : String) :
    (exportLines entries assessments fmtDate).length = entries.length + 1
    ∧ (exportLines entries assessments fmtDate).head? =
        some "Date,Symptoms,Risk Level,Notes"
    ∧ (∀ e, assessments.find? (fun a => a.symptom_entry_id == e.id) = none →
        riskCell assessments e = "N/A")
    ∧ (∀ e a, assessments.find? (fun x => x.symptom_entry_id == e.id) = some a →
        a.risk_level ≠ "" → riskCell assessments e = a.risk_level)
    ∧ (exportData entries assessments fmtDate today).2 =
        "symptom-tracker-" ++ today ++ ".csv" := by
  refine ⟨?_, rfl, ?_, ?_, rfl⟩
  · simp [exportLines]
  · intro e h
    simp [riskCell, h]
  · intro e a h hne
    simp [riskCell, h, hne]

/-- A symptom-entry row that has a matching assessment. -/
def entryMatched : EntryRow :=
  { id := "e1", symptoms := ["Fever", "Cough"], notes := some "bad night"
    created_at := "2025-01-02T03:04:05Z" }

/-- A symptom-entry row with no matching assessment. -/
def entryUnmatched : EntryRow :=
  { id := "e2", symptoms := ["Headache"], notes := none
    created_at := "2025-01-03T03:04:05Z" }

/-- The assessment row matching `entryMatched`. -/
def assessMatched : AssessmentRow :=
  { id := "a1", predictions := fallbackAnalysis, risk_level := "medium"
    created_at := "2025-01-02T03:05:05Z", symptom_entry_id := "e1" }

/-- Witness for C8: two entries, one matched and one unmatched, give a
header plus two rows, and the unmatched entry's risk column is "N/A". -/
theorem export_csv_shape_witness :
    (exportLines [entryMatched, entryUnmatched] [assessMatched] (fun d => d)).length =
      [entryMatched, entryUnmatched].length + 1
    ∧ riskCell [assessMatched] entryUnmatched = "N/A" :=
  ⟨(export_csv_shape [entryMatched, entryUnmatched] [assessMatched] (fun d => d) "2025-10-11").1,
   (export_csv_shape [entryMatched, entryUnmatched] [assessMatched] (fun d => d) "2025-10-11").2.2.1
     entryUnmatched rfl⟩

/-- C9: the dashboard loads at most the 10 most recent rows per table —
each fetched list is a creation-time-descending prefix of length at most
10, every omitted row is no more recent than every loaded one, and the
export built from the fetched data has at most 11 lines (header plus at
most 10 rows). -/
theorem dashboard_limits_to_ten (dbEntries : List EntryRow)
    (dbAssessments : List AssessmentRow) (fmtDate : String → String) :
    (fetchDashboardData dbEntries dbAssessments).1.length ≤ 10
    ∧ (fetchDashboardData dbEntries dbAssessments).2.length ≤ 10
    ∧ List.Sorted entryMoreRecent (fetchDashboardData dbEntries dbAssessments).1
    ∧ (exportLines (fetchDashboardData dbEntries dbAssessments).1
        (fetchDashboardData dbEntries dbAssessments).2 fmtDate).length ≤ 11
    ∧ (∀ y ∈ (fetchDashboardData dbEntries dbAssessments).1,
        ∀ x ∈ (List.insertionSort entryMoreRecent dbEntries).drop 10,
          x.created_at ≤ y.created_at) := by
  have hsorted := List.sorted_insertionSort entryMoreRecent dbEntries
  have hlen1 : (fetchDashboardData dbEntries dbAssessments).1.length ≤ 10 := by
    simp [fetchDashboardData]
  refine ⟨hlen1, ?_, ?_, ?_, ?_⟩
  · simp [fetchDashboardData]
  · exact List.Pairwise.sublist (List.take_sublist 10 _) hsorted
  · simp only [exportLines, List.length_cons, List.length_map]
    omega
  · intro y hy x hx
    have hpair : List.Pairwise entryMoreRecent
        ((List.insertionSort entryMoreRecent dbEntries).take 10 ++
          (List.insertionSort entryMoreRecent dbEntries).drop 10) := by
      rw [List.take_append_drop]
      exact hsorted
    exact (List.pairwise_append.mp hpair).2.2 y hy x hx

/-- Witness for C9: twelve concrete entry rows load as ten. -/
theorem dashboard_limits_to_ten_witness :
    (fetchDashboardData
        ((List.range 12).map (fun i =>
          { id := toString i, symptoms := ["Fever"], notes := none
            created_at := toString i : EntryRow }))
        []).1.length ≤ 10 :=
  (dashboard_limits_to_ten
    ((List.range 12).map (fun i =>
      { id := toString i, symptoms := ["Fever"], notes := none
        created_at := toString i : EntryRow }))
    [] (fun d => d)).1

end SymptomTracker
